import Mathlib

/-!
Verification development for the gemini-mcp server.

Shallow embedding of the session store, instruction composer, model router
and tool dispatcher from src/index.ts. JavaScript truthiness defaults
(x || d) and nullish coalescing (x ?? d) are modelled explicitly; timestamps
are Int (milliseconds); the remote Gemini SDK is an oracle parameter.
-/

namespace GeminiMcp

/-! JavaScript-style helpers. -/

/-- ASCII lower-casing of a character, as used by prompt.toLowerCase()
on the ASCII keyword alphabet. -/
def jsCharToLower (c : Char) : Char :=
  if 65 ≤ c.toNat ∧ c.toNat ≤ 90 then Char.ofNat (c.toNat + 32) else c

/-- prompt.toLowerCase() restricted to ASCII case folding. -/
def jsToLower (s : String) : String :=
  ⟨s.data.map jsCharToLower⟩

/-- Whether the first list occurs at the head of the second. -/
def leadMatch : List Char → List Char → Bool
  | [], _ => true
  | _ :: _, [] => false
  | a :: as, b :: bs => a == b && leadMatch as bs

/-- Whether the first list occurs as a contiguous sublist of the second. -/
def subOccurs (needle : List Char) : List Char → Bool
  | [] => leadMatch needle []
  | c :: cs => leadMatch needle (c :: cs) || subOccurs needle cs

/-- JavaScript hay.includes(needle) on strings. -/
def strIncludes (hay needle : String) : Bool :=
  subOccurs needle.data hay.data

/-- JavaScript s || d for strings: undefined and the empty string fall back. -/
def jsOrStr : Option String → String → String
  | some s, d => if s = "" then d else s
  | none, d => d

/-- JavaScript n || d for numbers: undefined and 0 fall back. -/
def jsOrInt : Option Int → Int → Int
  | some n, d => if n = 0 then d else n
  | none, d => d

/-- JavaScript b || d for booleans: undefined and false fall back. -/
def jsOrBool : Option Bool → Bool → Bool
  | some b, d => b || d
  | none, d => d

/-- JavaScript t || "" applied to a possibly-undefined response text. -/
def jsOrEmpty : Option String → String
  | some t => t
  | none => ""

/-! Model router (image tier selection). -/

def IMAGE_MODEL_FAST : String := "gemini-2.5-flash-image"

def IMAGE_MODEL_PRO : String := "gemini-3-pro-image-preview"

/-- The fixed keyword list PRO_KEYWORDS from src/index.ts. -/
def PRO_KEYWORDS : List String :=
  ["nano banana pro", "nanobanana pro", "pro model",
   "infographic", "diagram", "chart", "graph",
   "text", "typography", "font", "lettering", "writing",
   "slide", "presentation", "deck",
   "logo", "brand", "poster", "flyer", "banner",
   "document", "page", "layout",
   "high quality", "high-quality", "hq", "4k",
   "detailed text", "readable", "legible"]

/-- shouldUsePro: the lower-cased prompt contains some keyword. -/
def shouldUsePro (prompt : String) : Bool :=
  PRO_KEYWORDS.any (fun keyword => strIncludes (jsToLower prompt) keyword)

/-! Image request construction (generateImage and the gemini-image branch). -/

/-- The options record received by generateImage. -/
structure ImageOptions where
  numberOfImages : Option Int
  aspect : Option String
  usePro : Option Bool
deriving DecidableEq, Repr

/-- The argument bag of a gemini-image tool call. -/
structure ImageArgs where
  prompt : String
  numberOfImages : Option Int
  aspect : Option String
  usePro : Option Bool
  outputPath : Option String
deriving DecidableEq, Repr

/-- The request fields generateImage passes to ai.models.generateImages. -/
structure ImageRequest where
  model : String
  prompt : String
  numberOfImages : Int
  aspect : String
deriving DecidableEq, Repr

/-- The pure request-construction part of generateImage (src/index.ts
lines 124-146): defaults via ||, tier via options.usePro ?? shouldUsePro. -/
def generateImageRequest (prompt : String) (options : ImageOptions) : ImageRequest :=
  let numberOfImages := jsOrInt options.numberOfImages 1
  let aspect := jsOrStr options.aspect "1:1"
  let usePro := options.usePro.getD (shouldUsePro prompt)
  let model := if usePro then IMAGE_MODEL_PRO else IMAGE_MODEL_FAST
  { model := model, prompt := prompt, numberOfImages := numberOfImages, aspect := aspect }

/-- The gemini-image dispatch branch (src/index.ts lines 434-448): the handler
pre-applies || defaults, in particular usePro || false, before calling
generateImage. -/
def dispatchImageRequest (args : ImageArgs) : ImageRequest :=
  generateImageRequest args.prompt
    { numberOfImages := some (jsOrInt args.numberOfImages 1),
      aspect := some (jsOrStr args.aspect "1:1"),
      usePro := some (jsOrBool args.usePro false) }

/-! Instruction composer. -/

/-- The fixed default persona paragraph of buildSystemInstruction. -/
def DEFAULT_PERSONA : String :=
  "You are an expert software engineer assistant powered by Gemini 3 Pro Preview.\nYou help with code review, analysis, planning, and problem-solving.\nProvide clear, concise, and actionable responses.\nWhen reviewing code or plans, be thorough but practical."

/-- The sandboxDescriptions bracket lookup. sandboxDescriptions is a plain
JavaScript object literal, and a bracket lookup on it falls back to the
prototype chain: besides the three own keys, the names of the inherited
Object.prototype members also yield a truthy value. The returned string is
what the template literal interpolates for the looked-up value (the V8
stringification of the inherited natives, and of Object.prototype itself for
the proto accessor); only names bound neither as own keys nor on
Object.prototype yield undefined. -/
def sandboxDescription (s : String) : Option String :=
  if s = "read-only" then
    some "You are in read-only mode. You can analyze and review but cannot make changes."
  else if s = "workspace-write" then
    some "You can read and write within the workspace directory."
  else if s = "danger-full-access" then
    some "You have full access to read and write files."
  else if s = "constructor" then
    some "function Object() \x7b [native code] \x7d"
  else if s = "hasOwnProperty" then
    some "function hasOwnProperty() \x7b [native code] \x7d"
  else if s = "isPrototypeOf" then
    some "function isPrototypeOf() \x7b [native code] \x7d"
  else if s = "propertyIsEnumerable" then
    some "function propertyIsEnumerable() \x7b [native code] \x7d"
  else if s = "toLocaleString" then
    some "function toLocaleString() \x7b [native code] \x7d"
  else if s = "toString" then
    some "function toString() \x7b [native code] \x7d"
  else if s = "valueOf" then
    some "function valueOf() \x7b [native code] \x7d"
  else if s = "__defineGetter__" then
    some "function __defineGetter__() \x7b [native code] \x7d"
  else if s = "__defineSetter__" then
    some "function __defineSetter__() \x7b [native code] \x7d"
  else if s = "__lookupGetter__" then
    some "function __lookupGetter__() \x7b [native code] \x7d"
  else if s = "__lookupSetter__" then
    some "function __lookupSetter__() \x7b [native code] \x7d"
  else if s = "__proto__" then
    some "[object Object]"
  else none

/-- The names on which the sandboxDescriptions bracket lookup yields a truthy
value: the three own keys followed by the inherited Object.prototype member
names. -/
def sandboxLookupKeys : List String :=
  ["read-only", "workspace-write", "danger-full-access",
   "constructor", "hasOwnProperty", "isPrototypeOf", "propertyIsEnumerable",
   "toLocaleString", "toString", "valueOf",
   "__defineGetter__", "__defineSetter__", "__lookupGetter__",
   "__lookupSetter__", "__proto__"]

/-- The config record taken by buildSystemInstruction. -/
structure InstructionConfig where
  cwd : Option String
  sandbox : Option String
  baseInstructions : Option String
  developerInstructions : Option String
deriving DecidableEq, Repr

/-- JavaScript Array.join with a newline separator. -/
def joinNl : List String → String
  | [] => ""
  | [p] => p
  | p :: q :: rest => p ++ "\n" ++ joinNl (q :: rest)

/-- buildSystemInstruction (src/index.ts lines 56-97). Each optional field is
guarded by JavaScript truthiness, so an empty string behaves like an absent
field. -/
def buildSystemInstruction (config : InstructionConfig) : String :=
  let base := match config.baseInstructions with
    | some b => if b = "" then DEFAULT_PERSONA else b
    | none => DEFAULT_PERSONA
  let cwdParts : List String := match config.cwd with
    | some c => if c = "" then [] else ["\nWorking directory: " ++ c]
    | none => []
  let sandboxParts : List String := match config.sandbox with
    | some s =>
      if s = "" then [] else
        match sandboxDescription s with
        | some d => ["\nAccess level: " ++ d]
        | none => []
    | none => []
  let devParts : List String := match config.developerInstructions with
    | some d => if d = "" then [] else ["\nDeveloper Instructions:\n" ++ d]
    | none => []
  joinNl ([base] ++ cwdParts ++ sandboxParts ++ devParts)

/-! Session store. -/

/-- One Content entry of a conversation history: a role and its text part. -/
structure Turn where
  role : String
  text : String
deriving DecidableEq, Repr

/-- A ConversationSession record. -/
structure ConversationSession where
  history : List Turn
  createdAt : Int
  lastUsed : Int
  cwd : Option String
deriving DecidableEq, Repr

/-- The sessions Map, as an association list in insertion order. -/
abbrev Store := List (String × ConversationSession)

/-- Map.get: the binding of the key, if present. -/
def mapGet (k : String) : Store → Option ConversationSession
  | [] => none
  | (k', v) :: rest => if k' = k then some v else mapGet k rest

/-- Map.set: replace an existing binding in place, else append. -/
def mapSet (k : String) (v : ConversationSession) : Store → Store
  | [] => [(k, v)]
  | (k', v') :: rest =>
      if k' = k then (k, v) :: rest else (k', v') :: mapSet k v rest

/-- cleanupSessions (src/index.ts lines 41-48): drop every session whose
lastUsed is strictly before now minus one hour. -/
def cleanupSessions (now : Int) (store : Store) : Store :=
  store.filter (fun p => !decide (p.2.lastUsed < now - 60 * 60 * 1000))

/-! Remote chat call. -/

/-- The fields callGemini assembles for ai.chats.create / sendMessage. -/
structure ChatRequest where
  model : String
  systemInstruction : Option String
  history : List Turn
  message : String
deriving DecidableEq, Repr

/-- Build the chat request; config is undefined when the instruction string
is falsy (systemInstruction ? ... : undefined). -/
def chatRequest (envModel : String) (systemInstruction : Option String)
    (history : List Turn) (prompt : String) : ChatRequest :=
  { model := envModel,
    systemInstruction := match systemInstruction with
      | some s => if s = "" then none else some s
      | none => none,
    history := history,
    message := prompt }

/-- callGemini (src/index.ts lines 165-192): send the prompt, then extend the
history with the user turn and the model turn. The remote SDK is the oracle
parameter; failure is the thrown error message. -/
def callGemini (envModel : String)
    (remote : ChatRequest → Except String (Option String))
    (prompt : String) (history : List Turn) (systemInstruction : Option String) :
    Except String (String × List Turn) :=
  match remote (chatRequest envModel systemInstruction history prompt) with
  | .error e => .error e
  | .ok t? =>
      .ok (jsOrEmpty t?,
           history ++ [{ role := "user", text := prompt },
                       { role := "model", text := jsOrEmpty t? }])

/-! Tool dispatcher. -/

/-- The argument bag of a gemini (initial-turn) tool call. -/
structure GeminiArgs where
  prompt : String
  cwd : Option String
  sandbox : Option String
  baseInstructions : Option String
  developerInstructions : Option String
  model : Option String
deriving DecidableEq, Repr

/-- The argument bag of a gemini-reply (continue-turn) tool call. -/
structure ReplyArgs where
  conversationId : String
  prompt : String
deriving DecidableEq, Repr

/-- The result envelope: the single text block, the error flag (absent means
false), and the conversationId side-channel metadata. -/
structure ToolResponse where
  text : String
  isError : Bool
  conversationId : Option String
deriving DecidableEq, Repr

/-- The gemini branch of the CallToolRequestSchema handler (src/index.ts
lines 340-388 plus the catch block): sweep, compose instructions, call
Gemini, and on success store a fresh session under the generated id. -/
def dispatchGemini (envModel : String)
    (remote : ChatRequest → Except String (Option String))
    (now : Int) (newId : String) (store : Store) (args : GeminiArgs) :
    ToolResponse × Store :=
  match callGemini envModel remote args.prompt []
      (some (buildSystemInstruction
        { cwd := args.cwd, sandbox := args.sandbox,
          baseInstructions := args.baseInstructions,
          developerInstructions := args.developerInstructions })) with
  | .error e =>
      ({ text := "Gemini API error: " ++ e, isError := true, conversationId := none },
       cleanupSessions now store)
  | .ok (text, history) =>
      ({ text := text, isError := false, conversationId := some newId },
       mapSet newId
         { history := history, createdAt := now, lastUsed := now, cwd := args.cwd }
         (cleanupSessions now store))

/-- The gemini-reply branch of the CallToolRequestSchema handler (src/index.ts
lines 390-432 plus the catch block): sweep, look up the session, recompose
the instruction from only the stored cwd, call Gemini with the accumulated
history, and update history and lastUsed. -/
def dispatchReply (envModel : String)
    (remote : ChatRequest → Except String (Option String))
    (now : Int) (store : Store) (args : ReplyArgs) :
    ToolResponse × Store :=
  match mapGet args.conversationId (cleanupSessions now store) with
  | none =>
      ({ text := "Error: Conversation " ++ args.conversationId ++
           " not found. It may have expired or never existed.",
         isError := true, conversationId := none },
       cleanupSessions now store)
  | some session =>
      match callGemini envModel remote args.prompt session.history
          (some (buildSystemInstruction
            { cwd := session.cwd, sandbox := none,
              baseInstructions := none, developerInstructions := none })) with
      | .error e =>
          ({ text := "Gemini API error: " ++ e, isError := true,
             conversationId := none },
           cleanupSessions now store)
      | .ok (text, history) =>
          ({ text := text, isError := false,
             conversationId := some args.conversationId },
           mapSet args.conversationId
             { session with history := history, lastUsed := now }
             (cleanupSessions now store))

/-! History invariant and helper lemmas. -/

/-- A history is a complete sequence of user/model pairs: even length,
alternating roles starting with a user turn. -/
def altFromUser : List Turn → Bool
  | [] => true
  | [_] => false
  | u :: m :: rest => u.role == "user" && m.role == "model" && altFromUser rest

theorem altFromUser_append (p t : String) :
    ∀ h : List Turn, altFromUser h = true →
      altFromUser (h ++ [{ role := "user", text := p },
                         { role := "model", text := t }]) = true
  | [], _ => by simp [altFromUser]
  | [_], hh => by simp [altFromUser] at hh
  | u :: m :: rest, hh => by
      simp only [altFromUser, Bool.and_eq_true, beq_iff_eq] at hh
      simp only [List.cons_append, altFromUser, Bool.and_eq_true, beq_iff_eq]
      exact ⟨hh.1, altFromUser_append p t rest hh.2⟩

theorem mapGet_mapSet_self (k : String) (v : ConversationSession) :
    ∀ store : Store, mapGet k (mapSet k v store) = some v
  | [] => by simp [mapGet, mapSet]
  | (k', v') :: rest => by
      by_cases hk : k' = k
      · simp [mapGet, mapSet, hk]
      · simp [mapGet, mapSet, hk, mapGet_mapSet_self k v rest]

theorem mapGet_cleanup_none (now : Int) :
    ∀ store : Store, ∀ k : String, mapGet k store = none →
      mapGet k (cleanupSessions now store) = none
  | [], _, _ => rfl
  | (k', v) :: rest, k, h => by
      by_cases hk : k' = k
      · simp [mapGet, hk] at h
      · have hrest : mapGet k rest = none := by simpa [mapGet, hk] using h
        have ih := mapGet_cleanup_none now rest k hrest
        simp only [cleanupSessions, List.filter_cons] at ih ⊢
        split
        · simpa [mapGet, hk] using ih
        · exact ih

theorem callGemini_ok_shape {envModel : String}
    {remote : ChatRequest → Except String (Option String)}
    {prompt : String} {history : List Turn} {systemInstruction : Option String}
    {text : String} {newHistory : List Turn}
    (h : callGemini envModel remote prompt history systemInstruction =
          .ok (text, newHistory)) :
    newHistory = history ++ [{ role := "user", text := prompt },
                             { role := "model", text := text }] := by
  unfold callGemini at h
  split at h
  · cases h
  · injection h with h1
    injection h1 with ha hb
    subst ha
    exact hb.symm

/-! Claim theorems. -/

/-- Claim C1: the keyword auto-detection is claimed to pick the tier when the
caller omits usePro, and the code documents the same; but the gemini-image
dispatch branch passes usePro || false to generateImage, so the keyword match
is never consulted there. At the failing input, the prompt "infographic"
matches the keyword list and generateImage alone would pick the advanced
model, yet the dispatch sends the fast model. -/
theorem claim_C1_dispatch_defeats_autodetect :
    shouldUsePro "infographic" = true ∧
    (generateImageRequest "infographic"
      { numberOfImages := none, aspect := none, usePro := none }).model =
        IMAGE_MODEL_PRO ∧
    (dispatchImageRequest
      { prompt := "infographic", numberOfImages := none, aspect := none,
        usePro := none, outputPath := none }).model = IMAGE_MODEL_FAST :=
  ⟨by decide, rfl, rfl⟩

/-- Claim C2: when the usePro override is present, the selected image model is
the advanced tier iff the override is true, for every prompt — at the
generateImage layer and at the dispatch layer alike. -/
theorem claim_C2_override_wins :
    (∀ (p : String) (n : Option Int) (a : Option String) (b : Bool),
       (generateImageRequest p
         { numberOfImages := n, aspect := a, usePro := some b }).model =
           if b then IMAGE_MODEL_PRO else IMAGE_MODEL_FAST)
  ∧ (∀ (p : String) (n : Option Int) (a : Option String) (b : Bool)
       (o : Option String),
       (dispatchImageRequest
         { prompt := p, numberOfImages := n, aspect := a, usePro := some b,
           outputPath := o }).model =
           if b then IMAGE_MODEL_PRO else IMAGE_MODEL_FAST) := by
  constructor
  · intro p n a b
    simp [generateImageRequest]
  · intro p n a b o
    simp [dispatchImageRequest, generateImageRequest, jsOrBool]

/-- Claim C3, counterexample: an image count of 7 is forwarded to the remote
request unchanged, outside the claimed [1,4] range — no clamping happens. -/
theorem claim_C3_count_counterexample :
    (dispatchImageRequest
      { prompt := "a cat", numberOfImages := some 7, aspect := none,
        usePro := none, outputPath := none }).numberOfImages = 7 ∧
    ¬((dispatchImageRequest
      { prompt := "a cat", numberOfImages := some 7, aspect := none,
        usePro := none, outputPath := none }).numberOfImages ≤ 4) :=
  ⟨rfl, by decide⟩

/-- Claim C3 as amended: an absent count, or a count of 0 (falsy under the
JavaScript || default), is forwarded as 1; every other supplied count is
forwarded unchanged, with no clamping into [1,4]. -/
theorem claim_C3_amended_count_default_passthrough :
    (∀ (p : String) (a : Option String) (u : Option Bool) (o : Option String),
       (dispatchImageRequest
         { prompt := p, numberOfImages := none, aspect := a, usePro := u,
           outputPath := o }).numberOfImages = 1)
  ∧ (∀ (p : String) (a : Option String) (u : Option Bool) (o : Option String),
       (dispatchImageRequest
         { prompt := p, numberOfImages := some 0, aspect := a, usePro := u,
           outputPath := o }).numberOfImages = 1)
  ∧ (∀ (p : String) (a : Option String) (u : Option Bool) (o : Option String)
       (n : Int), n ≠ 0 →
       (dispatchImageRequest
         { prompt := p, numberOfImages := some n, aspect := a, usePro := u,
           outputPath := o }).numberOfImages = n) := by
  refine ⟨?_, ?_, ?_⟩
  · intro p a u o
    simp [dispatchImageRequest, generateImageRequest, jsOrInt]
  · intro p a u o
    simp [dispatchImageRequest, generateImageRequest, jsOrInt]
  · intro p a u o n hn
    simp [dispatchImageRequest, generateImageRequest, jsOrInt, hn]

/-- Witness for the amended claim C3 at the concrete out-of-range count 7. -/
theorem claim_C3_amended_count_default_passthrough_witness :
    (7 : Int) ≠ 0 ∧
    (dispatchImageRequest
      { prompt := "a cat", numberOfImages := some 7, aspect := none,
        usePro := none, outputPath := none }).numberOfImages = 7 :=
  ⟨by decide,
   claim_C3_amended_count_default_passthrough.2.2 "a cat" none none none 7
     (by decide)⟩

/-- Claim C4: the sweep keeps exactly the sessions whose lastUsed is not
strictly older than now minus one hour, each with its state unchanged, and
removes every strictly older one. -/
theorem claim_C4_sweep_exact (now : Int) (store : Store) (id : String)
    (s : ConversationSession) :
    (id, s) ∈ cleanupSessions now store ↔
      ((id, s) ∈ store ∧ ¬(s.lastUsed < now - 60 * 60 * 1000)) := by
  simp [cleanupSessions, List.mem_filter]

/-- Claim C5: a session stored by the initial-turn branch has a complete
two-entry user/model history, and a successful continue-turn on a session
whose history is a complete alternating sequence stores a history that is
still complete and exactly two entries longer. -/
theorem claim_C5_history_pairs :
    (∀ (em : String) (remote : ChatRequest → Except String (Option String))
       (now : Int) (newId : String) (store : Store) (args : GeminiArgs)
       (r : ToolResponse) (store' : Store) (s : ConversationSession),
       dispatchGemini em remote now newId store args = (r, store') →
       r.isError = false →
       mapGet newId store' = some s →
       altFromUser s.history = true ∧ s.history.length = 2)
  ∧ (∀ (em : String) (remote : ChatRequest → Except String (Option String))
       (now : Int) (store : Store) (args : ReplyArgs)
       (r : ToolResponse) (store' : Store) (s : ConversationSession),
       mapGet args.conversationId (cleanupSessions now store) = some s →
       altFromUser s.history = true →
       dispatchReply em remote now store args = (r, store') →
       r.isError = false →
       ∃ s', mapGet args.conversationId store' = some s' ∧
         altFromUser s'.history = true ∧
         s'.history.length = s.history.length + 2) := by
  constructor
  · intro em remote now newId store args r store' s hd he hg
    unfold dispatchGemini at hd
    split at hd
    · injection hd with h1 h2
      subst h1
      simp at he
    · rename_i text history heq
      injection hd with h1 h2
      subst h1
      subst h2
      rw [mapGet_mapSet_self] at hg
      injection hg with h3
      subst h3
      have hsh := callGemini_ok_shape heq
      subst hsh
      exact ⟨by simp [altFromUser], by simp⟩
  · intro em remote now store args r store' s hget halt hd he
    unfold dispatchReply at hd
    split at hd
    · rename_i hnone
      rw [hget] at hnone
      cases hnone
    · rename_i session hsome
      rw [hget] at hsome
      injection hsome with hs
      subst hs
      split at hd
      · injection hd with h1 h2
        subst h1
        simp at he
      · rename_i text history heq
        injection hd with h1 h2
        subst h1
        subst h2
        have hsh := callGemini_ok_shape heq
        subst hsh
        refine ⟨{ s with
            history := s.history ++ [{ role := "user", text := args.prompt },
                                     { role := "model", text := text }],
            lastUsed := now },
          mapGet_mapSet_self _ _ _, ?_, ?_⟩
        · exact altFromUser_append _ _ _ halt
        · simp

/-- Witness for claim C5: one concrete successful initial turn and one
concrete successful reply, with the concluded invariants evaluated. -/
theorem claim_C5_history_pairs_witness :
    (altFromUser [{ role := "user", text := "hi" },
                  { role := "model", text := "ok" }] = true ∧
     ([{ role := "user", text := "hi" },
       { role := "model", text := "ok" }] : List Turn).length = 2) ∧
    (∃ s', mapGet "c1"
        (mapSet "c1"
          { history := [{ role := "user", text := "a" },
                        { role := "model", text := "b" },
                        { role := "user", text := "again" },
                        { role := "model", text := "ok2" }],
            createdAt := 0, lastUsed := 0,
            cwd := (none : Option String) }
          (cleanupSessions 0
            [("c1", { history := [{ role := "user", text := "a" },
                                  { role := "model", text := "b" }],
                      createdAt := 0, lastUsed := 0, cwd := none })])) = some s' ∧
      altFromUser s'.history = true ∧
      s'.history.length =
        ([{ role := "user", text := "a" },
          { role := "model", text := "b" }] : List Turn).length + 2) :=
  ⟨claim_C5_history_pairs.1 "m" (fun _ => .ok (some "ok")) 0 "id1" []
     { prompt := "hi", cwd := none, sandbox := none, baseInstructions := none,
       developerInstructions := none, model := none }
     { text := "ok", isError := false, conversationId := some "id1" }
     (mapSet "id1"
       { history := [{ role := "user", text := "hi" },
                     { role := "model", text := "ok" }],
         createdAt := 0, lastUsed := 0, cwd := none }
       (cleanupSessions 0 []))
     { history := [{ role := "user", text := "hi" },
                   { role := "model", text := "ok" }],
       createdAt := 0, lastUsed := 0, cwd := none }
     rfl rfl rfl,
   claim_C5_history_pairs.2 "m" (fun _ => .ok (some "ok2")) 0
     [("c1", { history := [{ role := "user", text := "a" },
                           { role := "model", text := "b" }],
               createdAt := 0, lastUsed := 0, cwd := none })]
     { conversationId := "c1", prompt := "again" }
     { text := "ok2", isError := false, conversationId := some "c1" }
     (mapSet "c1"
       { history := [{ role := "user", text := "a" },
                     { role := "model", text := "b" },
                     { role := "user", text := "again" },
                     { role := "model", text := "ok2" }],
         createdAt := 0, lastUsed := 0, cwd := none }
       (cleanupSessions 0
         [("c1", { history := [{ role := "user", text := "a" },
                               { role := "model", text := "b" }],
                   createdAt := 0, lastUsed := 0, cwd := none })]))
     { history := [{ role := "user", text := "a" },
                   { role := "model", text := "b" }],
       createdAt := 0, lastUsed := 0, cwd := none }
     rfl rfl rfl rfl⟩

/-- Claim C6: a continue-turn on a conversation id absent from the store
returns the error-flagged not-found response and leaves the (swept) store
as is — in particular the id is still absent afterwards, so no session was
created. -/
theorem claim_C6_reply_unknown_id (em : String)
    (remote : ChatRequest → Except String (Option String))
    (now : Int) (store : Store) (args : ReplyArgs)
    (h : mapGet args.conversationId store = none) :
    dispatchReply em remote now store args =
      ({ text := "Error: Conversation " ++ args.conversationId ++
           " not found. It may have expired or never existed.",
         isError := true, conversationId := none },
       cleanupSessions now store) ∧
    mapGet args.conversationId (dispatchReply em remote now store args).2 =
      none := by
  have h2 := mapGet_cleanup_none now store args.conversationId h
  have he : dispatchReply em remote now store args =
      ({ text := "Error: Conversation " ++ args.conversationId ++
           " not found. It may have expired or never existed.",
         isError := true, conversationId := none },
       cleanupSessions now store) := by
    unfold dispatchReply
    rw [h2]
  exact ⟨he, by rw [he]; exact h2⟩

/-- Witness for claim C6 at a concrete unknown conversation id. -/
theorem claim_C6_reply_unknown_id_witness :
    dispatchReply "m" (fun _ => .ok (some "x")) 0 []
        { conversationId := "nope", prompt := "hi" } =
      ({ text := "Error: Conversation " ++ "nope" ++
           " not found. It may have expired or never existed.",
         isError := true, conversationId := none },
       cleanupSessions 0 []) ∧
    mapGet "nope"
      (dispatchReply "m" (fun _ => .ok (some "x")) 0 []
        { conversationId := "nope", prompt := "hi" }).2 = none :=
  claim_C6_reply_unknown_id "m" (fun _ => .ok (some "x")) 0 []
    { conversationId := "nope", prompt := "hi" } rfl

/-- Claim C7: when the remote chat call of an initial turn fails, the dispatch
returns an error-flagged response carrying the failure message, and the
resulting store is just the swept input store — no session is created. -/
theorem claim_C7_initial_failure_no_session (em : String)
    (remote : ChatRequest → Except String (Option String))
    (now : Int) (newId : String) (store : Store) (args : GeminiArgs)
    (e : String)
    (h : callGemini em remote args.prompt []
        (some (buildSystemInstruction
          { cwd := args.cwd, sandbox := args.sandbox,
            baseInstructions := args.baseInstructions,
            developerInstructions := args.developerInstructions })) =
          .error e) :
    dispatchGemini em remote now newId store args =
      ({ text := "Gemini API error: " ++ e, isError := true,
         conversationId := none },
       cleanupSessions now store) := by
  unfold dispatchGemini
  rw [h]

/-- Witness for claim C7 with a concrete always-failing remote. -/
theorem claim_C7_initial_failure_no_session_witness :
    dispatchGemini "m" (fun _ => .error "boom") 0 "id1" []
        { prompt := "hi", cwd := none, sandbox := none,
          baseInstructions := none, developerInstructions := none,
          model := none } =
      ({ text := "Gemini API error: " ++ "boom", isError := true,
         conversationId := none },
       cleanupSessions 0 []) :=
  claim_C7_initial_failure_no_session "m" (fun _ => .error "boom") 0 "id1" []
    { prompt := "hi", cwd := none, sandbox := none, baseInstructions := none,
      developerInstructions := none, model := none } "boom" rfl

theorem strAppend_assoc (a b c : String) : (a ++ b) ++ c = a ++ (b ++ c) := by
  apply String.ext
  simp

theorem strLength_append (a b : String) :
    (a ++ b).length = a.length + b.length := by
  rw [show (a ++ b).length = (a ++ b).data.length from rfl,
    show a.length = a.data.length from rfl,
    show b.length = b.data.length from rfl,
    String.data_append, List.length_append]

/-- Claim C8, counterexample: "toString" is outside the three recognized
access-policy strings, yet composing with it does not leave the output
unchanged — the plain-object lookup finds the inherited Object.prototype
member, which is truthy, so an Access level line is appended. -/
theorem claim_C8_composer_counterexample :
    ("toString" ≠ "read-only" ∧ "toString" ≠ "workspace-write" ∧
     "toString" ≠ "danger-full-access") ∧
    buildSystemInstruction
      { cwd := none, sandbox := some "toString", baseInstructions := none,
        developerInstructions := none } ≠
    buildSystemInstruction
      { cwd := none, sandbox := none, baseInstructions := none,
        developerInstructions := none } := by
  refine ⟨⟨by decide, by decide, by decide⟩, ?_⟩
  intro h
  have h1 : buildSystemInstruction
      { cwd := none, sandbox := some "toString", baseInstructions := none,
        developerInstructions := none } =
      DEFAULT_PERSONA ++ "\n" ++
        ("\nAccess level: " ++
          "function toString() \x7b [native code] \x7d") := rfl
  have h2 : buildSystemInstruction
      { cwd := none, sandbox := none, baseInstructions := none,
        developerInstructions := none } = DEFAULT_PERSONA := rfl
  rw [h1, h2] at h
  have h3 := congrArg String.length h
  rw [strLength_append, strLength_append, strLength_append,
    show ("\n" : String).length = 1 from rfl] at h3
  omega

/-- Claim C8 as amended: the composer yields exactly the default persona when
no optional field is supplied; the access-policy lookup is truthy exactly on
the three recognized keys plus the inherited Object.prototype member names;
a value outside that set contributes nothing and raises no error; a value
naming an inherited member appends an Access level line carrying the
member's stringification; and with all fields supplied the blocks appear
joined by newlines in the fixed order base, working directory, access
description, developer instructions. -/
theorem claim_C8_composer_amended :
    (buildSystemInstruction
      { cwd := none, sandbox := none, baseInstructions := none,
        developerInstructions := none } = DEFAULT_PERSONA)
  ∧ (∀ s : String, sandboxDescription s = none ↔ ¬ s ∈ sandboxLookupKeys)
  ∧ (∀ (cwd base dev : Option String) (s : String),
       sandboxDescription s = none →
       buildSystemInstruction
         { cwd := cwd, sandbox := some s, baseInstructions := base,
           developerInstructions := dev } =
       buildSystemInstruction
         { cwd := cwd, sandbox := none, baseInstructions := base,
           developerInstructions := dev })
  ∧ (buildSystemInstruction
      { cwd := none, sandbox := some "toString", baseInstructions := none,
        developerInstructions := none } =
     DEFAULT_PERSONA ++ "\n" ++
       ("\nAccess level: " ++ "function toString() \x7b [native code] \x7d"))
  ∧ (∀ (c s b d desc : String), c ≠ "" → b ≠ "" → d ≠ "" →
       sandboxDescription s = some desc →
       buildSystemInstruction
         { cwd := some c, sandbox := some s, baseInstructions := some b,
           developerInstructions := some d } =
       b ++ "\n" ++ ("\nWorking directory: " ++ c) ++ "\n" ++
         ("\nAccess level: " ++ desc) ++ "\n" ++
         ("\nDeveloper Instructions:\n" ++ d)) := by
  refine ⟨rfl, ?_, ?_, rfl, ?_⟩
  · intro s
    have hall : ∀ k ∈ sandboxLookupKeys,
        (sandboxDescription k).isSome = true := by decide
    constructor
    · intro hnone hmem
      have hx := hall s hmem
      rw [hnone] at hx
      exact Bool.noConfusion hx
    · intro hn
      simp only [sandboxLookupKeys, List.mem_cons, List.not_mem_nil, or_false,
        not_or] at hn
      obtain ⟨h1, h2, h3, h4, h5, h6, h7, h8, h9, h10, h11, h12, h13, h14,
        h15⟩ := hn
      unfold sandboxDescription
      rw [if_neg h1, if_neg h2, if_neg h3, if_neg h4, if_neg h5, if_neg h6,
        if_neg h7, if_neg h8, if_neg h9, if_neg h10, if_neg h11, if_neg h12,
        if_neg h13, if_neg h14, if_neg h15]
  · intro cwd base dev s hs
    simp [buildSystemInstruction, hs]
  · intro c s b d desc hc hb hd hs
    have hsne : s ≠ "" := by
      intro hse
      rw [hse, show sandboxDescription "" = none from rfl] at hs
      cases hs
    simp [buildSystemInstruction, hs, hc, hb, hd, hsne, joinNl, strAppend_assoc]

/-- Witness for the amended claim C8: the genuinely-unbound policy "yolo" is
dropped, and a fully-populated composition with the recognized policy
"read-only" yields the four blocks in order. -/
theorem claim_C8_composer_amended_witness :
    (buildSystemInstruction
      { cwd := none, sandbox := some "yolo", baseInstructions := none,
        developerInstructions := none } =
     buildSystemInstruction
      { cwd := none, sandbox := none, baseInstructions := none,
        developerInstructions := none }) ∧
    (buildSystemInstruction
      { cwd := some "/tmp", sandbox := some "read-only",
        baseInstructions := some "B", developerInstructions := some "D" } =
     "B" ++ "\n" ++ ("\nWorking directory: " ++ "/tmp") ++ "\n" ++
       ("\nAccess level: " ++
         "You are in read-only mode. You can analyze and review but cannot make changes.") ++
       "\n" ++ ("\nDeveloper Instructions:\n" ++ "D")) :=
  ⟨claim_C8_composer_amended.2.2.1 none none none "yolo" rfl,
   claim_C8_composer_amended.2.2.2.2 "/tmp" "read-only" "B" "D"
     "You are in read-only mode. You can analyze and review but cannot make changes."
     (by decide) (by decide) (by decide) rfl⟩

/-- Claim C9: a successful continue-turn updates exactly the history and
lastUsed fields of the stored session — createdAt and the cwd captured at
creation are unchanged — and the remote call is issued with the system
instruction recomposed from only that stored cwd. -/
theorem claim_C9_reply_frame (em : String)
    (remote : ChatRequest → Except String (Option String))
    (now : Int) (store : Store) (args : ReplyArgs)
    (s : ConversationSession) (text : String) (history : List Turn)
    (hget : mapGet args.conversationId (cleanupSessions now store) = some s)
    (hcall : callGemini em remote args.prompt s.history
        (some (buildSystemInstruction
          { cwd := s.cwd, sandbox := none, baseInstructions := none,
            developerInstructions := none })) = .ok (text, history)) :
    dispatchReply em remote now store args =
      ({ text := text, isError := false,
         conversationId := some args.conversationId },
       mapSet args.conversationId
         { history := history, createdAt := s.createdAt, lastUsed := now,
           cwd := s.cwd }
         (cleanupSessions now store)) ∧
    history = s.history ++ [{ role := "user", text := args.prompt },
                            { role := "model", text := text }] := by
  constructor
  · simp only [dispatchReply, hget, hcall]
  · exact callGemini_ok_shape hcall

/-- Witness for claim C9 on a concrete one-pair session. -/
theorem claim_C9_reply_frame_witness :
    dispatchReply "m" (fun _ => .ok (some "ok2")) 0
        [("c1", { history := [{ role := "user", text := "a" },
                              { role := "model", text := "b" }],
                  createdAt := 0, lastUsed := 0, cwd := some "/w" })]
        { conversationId := "c1", prompt := "again" } =
      ({ text := "ok2", isError := false, conversationId := some "c1" },
       mapSet "c1"
         { history := [{ role := "user", text := "a" },
                       { role := "model", text := "b" },
                       { role := "user", text := "again" },
                       { role := "model", text := "ok2" }],
           createdAt := 0, lastUsed := 0, cwd := some "/w" }
         (cleanupSessions 0
           [("c1", { history := [{ role := "user", text := "a" },
                                 { role := "model", text := "b" }],
                     createdAt := 0, lastUsed := 0, cwd := some "/w" })])) ∧
    ([{ role := "user", text := "a" }, { role := "model", text := "b" },
      { role := "user", text := "again" },
      { role := "model", text := "ok2" }] : List Turn) =
      [{ role := "user", text := "a" }, { role := "model", text := "b" }] ++
        [{ role := "user", text := "again" }, { role := "model", text := "ok2" }] :=
  claim_C9_reply_frame "m" (fun _ => .ok (some "ok2")) 0
    [("c1", { history := [{ role := "user", text := "a" },
                          { role := "model", text := "b" }],
              createdAt := 0, lastUsed := 0, cwd := some "/w" })]
    { conversationId := "c1", prompt := "again" }
    { history := [{ role := "user", text := "a" },
                  { role := "model", text := "b" }],
      createdAt := 0, lastUsed := 0, cwd := some "/w" }
    "ok2"
    [{ role := "user", text := "a" }, { role := "model", text := "b" },
     { role := "user", text := "again" }, { role := "model", text := "ok2" }]
    rfl rfl

/-- Claim C10: the optional model argument of the gemini tool has no effect —
changing only that argument leaves the dispatch outcome identical, and the
outcome depends on the remote oracle only through requests whose model field
is the environment-configured identifier. -/
theorem claim_C10_model_arg_no_effect :
    (∀ (em : String) (remote : ChatRequest → Except String (Option String))
       (now : Int) (newId : String) (store : Store) (args : GeminiArgs)
       (m' : Option String),
       dispatchGemini em remote now newId store args =
         dispatchGemini em remote now newId store { args with model := m' })
  ∧ (∀ (em : String)
       (remote1 remote2 : ChatRequest → Except String (Option String))
       (now : Int) (newId : String) (store : Store) (args : GeminiArgs),
       (∀ rq : ChatRequest, rq.model = em → remote1 rq = remote2 rq) →
       dispatchGemini em remote1 now newId store args =
         dispatchGemini em remote2 now newId store args) := by
  constructor
  · intro em remote now newId store args m'
    rfl
  · intro em remote1 remote2 now newId store args h
    unfold dispatchGemini callGemini
    rw [h _ rfl]

/-- Witness for claim C10: a concrete dispatch is unchanged when the model
argument changes, and unchanged when the remote oracle is replaced by one
agreeing on requests carrying the environment model. -/
theorem claim_C10_model_arg_no_effect_witness :
    (dispatchGemini "m" (fun _ => .ok (some "ok")) 0 "id1" []
        { prompt := "hi", cwd := none, sandbox := none,
          baseInstructions := none, developerInstructions := none,
          model := none } =
      dispatchGemini "m" (fun _ => .ok (some "ok")) 0 "id1" []
        { prompt := "hi", cwd := none, sandbox := none,
          baseInstructions := none, developerInstructions := none,
          model := some "other" }) ∧
    (dispatchGemini "m" (fun _ => .ok (some "ok")) 0 "id1" []
        { prompt := "hi", cwd := none, sandbox := none,
          baseInstructions := none, developerInstructions := none,
          model := none } =
      dispatchGemini "m" (fun _rq => .ok (some "ok")) 0 "id1" []
        { prompt := "hi", cwd := none, sandbox := none,
          baseInstructions := none, developerInstructions := none,
          model := none }) :=
  ⟨claim_C10_model_arg_no_effect.1 "m" (fun _ => .ok (some "ok")) 0 "id1" []
     { prompt := "hi", cwd := none, sandbox := none, baseInstructions := none,
       developerInstructions := none, model := none } (some "other"),
   claim_C10_model_arg_no_effect.2 "m" (fun _ => .ok (some "ok"))
     (fun _rq => .ok (some "ok")) 0 "id1" []
     { prompt := "hi", cwd := none, sandbox := none, baseInstructions := none,
       developerInstructions := none, model := none }
     (fun _ _ => rfl)⟩

end GeminiMcp
